import Mathlib

/-!
Shallow embedding of the Tetris game engine (`src/main.ts`).

The embedding follows the TypeScript source function by function:
pure helpers become Lean functions, the mutable `FallingBrick` class
becomes a structure with explicit state-passing methods, and the
Redux-style reducer `handleActions` becomes a step function on a game
state record.  JavaScript's `Math.random()` brick draws are modelled by
an explicit supply list threaded through the state (the spec requires
randomness to be abstracted behind a single draw capability).  The
`while (this.canFall(grid)) this.y++` loop of `fastFall` is embedded
with explicit fuel returning `Option` (`none` = the loop did not exit
within the fuel), so a `some` result coincides with the source loop's
behaviour.  JavaScript array indexing that can yield `undefined`
(`grid[y]`, `grid[y][x]`) is embedded via `Option`-valued lookups so
that `undefined === -1` being `false` is captured faithfully.
-/

namespace Tetris

/-- GRID_WIDTH from the source. -/
def GRID_WIDTH : Nat := 10

/-- GRID_HEIGHT from the source. -/
def GRID_HEIGHT : Nat := 20

/-- QUEUE_SIZE from the source. -/
def QUEUE_SIZE : Nat := 4

/-- ROW_ANIMATION_FRAMES from the source. -/
def ROW_ANIMATION_FRAMES : Nat := 6

/-- POINTS_PER_ROW from the source. -/
def POINTS_PER_ROW : Nat := 100

/-- The 7 canonical brick types of Tetris (`enum BrickType`). -/
inductive BrickType where
  | I | L | J | O | S | Z | T
  deriving DecidableEq, Repr

/-- A brick shape is a square bit matrix (`type BrickShape = Bit[][]`);
bits are embedded as `Bool`. -/
abbrev BrickShape := List (List Bool)

/-- `brickTypeToShapeMap` from the source: canonical SPAWN-orientation
shape of each brick type. -/
def brickTypeToShapeMap : BrickType → BrickShape
  | .I => [[false, false, false, false],
           [true, true, true, true],
           [false, false, false, false],
           [false, false, false, false]]
  | .L => [[true, false, false],
           [true, true, true],
           [false, false, false]]
  | .J => [[false, false, true],
           [true, true, true],
           [false, false, false]]
  | .O => [[true, true],
           [true, true]]
  | .S => [[false, true, true],
           [true, true, false],
           [false, false, false]]
  | .Z => [[true, true, false],
           [false, true, true],
           [false, false, false]]
  | .T => [[false, true, false],
           [true, true, true],
           [false, false, false]]

/-- `shapeSize`: side length of a shape's bounding box. -/
def shapeSize (b : BrickShape) : Nat := b.length

/-- Cell lookup in a shape with JavaScript-like defaulting: out-of-range
reads are falsy. -/
def shapeCell (b : BrickShape) (x y : Nat) : Bool :=
  (b.getD y []).getD x false

/-- `isEmptyBitGridRow`: `b[y].every(x => !x)`. -/
def isEmptyBitGridRow (b : BrickShape) (y : Nat) : Bool :=
  (b.getD y []).all (fun c => !c)

/-- One 90-degree-clockwise bounding-box step of `rotateShape`'s loop:
`cur[x][size - 1 - y] = prev[y][x]`, i.e. `new[i][j] = prev[size-1-j][i]`. -/
def rotate90 (prev : BrickShape) : BrickShape :=
  let size := shapeSize prev
  (List.range size).map (fun i =>
    (List.range size).map (fun j => shapeCell prev i (size - 1 - j)))

/-- `rotateShape(prev, orientation)`: apply the 90-degree-clockwise
bounding-box transform `orientation` times. -/
def rotateShape (prev : BrickShape) (orientation : Nat) : BrickShape :=
  rotate90^[orientation] prev

/-- A grid cell (`type Cell = BrickType | EmptyCell`).  The source uses
the sentinel `-1` for the empty cell; the inductive keeps the empty
sentinel distinct from any out-of-range `undefined` read. -/
inductive Cell where
  | empty
  | brick (t : BrickType)
  deriving DecidableEq, Repr

/-- The grid of settled bricks (`type Grid = Cell[][]`), a list of rows. -/
abbrev Grid := List (List Cell)

/-- JavaScript `grid[y]`: `undefined` (`none`) for a row index outside
the array, including negative indices. -/
def rowAt (grid : Grid) (y : Int) : Option (List Cell) :=
  if y < 0 then none else grid.get? y.toNat

/-- JavaScript `row[x]`: `undefined` (`none`) outside the array. -/
def cellAt (row : List Cell) (x : Int) : Option Cell :=
  if x < 0 then none else row.get? x.toNat

/-- `isEmptyCell(grid, x, y)`:
`grid[y] === undefined || grid[y][x] === emptyCell`.
Note `undefined === -1` is `false`, so an in-range row with an
out-of-range column is NOT empty. -/
def isEmptyCell (grid : Grid) (x y : Int) : Bool :=
  match rowAt grid y with
  | none => true
  | some row => cellAt row x == some Cell.empty

/-- `collision(grid, shape, x0, y0)`: some occupied shape cell maps to a
non-empty grid cell. -/
def collision (grid : Grid) (shape : BrickShape) (x0 y0 : Int) : Bool :=
  let size := shapeSize shape
  (List.range size).any (fun y =>
    (List.range size).any (fun x =>
      shapeCell shape x y && !(isEmptyCell grid (x0 + x) (y0 + y))))

/-- `emptyRow(width)`. -/
def emptyRow (width : Nat) : List Cell := List.replicate width Cell.empty

/-- `emptyCells(width, height)`. -/
def emptyCells (width height : Nat) : Grid :=
  List.replicate height (emptyRow width)

/-- `isCompleteRow(row)`: every cell non-empty. -/
def isCompleteRow (row : List Cell) : Bool :=
  row.all (fun c => c != Cell.empty)

/-- `hasCompletedRow(grid)`. -/
def hasCompletedRow (grid : Grid) : Bool := grid.any isCompleteRow

/-- `removeCompletedRowsFromGrid(grid)`: keep the non-complete rows in
order, then left-pad with fresh empty rows up to `GRID_HEIGHT`. -/
def removeCompletedRowsFromGrid (grid : Grid) : Grid :=
  let remaining := grid.filter (fun row => !isCompleteRow row)
  List.replicate (GRID_HEIGHT - remaining.length) (emptyRow GRID_WIDTH)
    ++ remaining

/-- `jlstzOrientationToWallKickMap`: SRS kick offsets for J/L/S/T/Z,
keyed by the source orientation; pairs are `(dx, dy)`.  Outside
`0..3` the source map lookup yields nothing iterable; embedded as `[]`. -/
def jlstzOrientationToWallKickMap : Nat → List (Int × Int)
  | 0 => [(0, 0), (-1, 0), (-1, 1), (0, -2), (-1, -2)]
  | 1 => [(0, 0), (1, 0), (1, -1), (0, 2), (1, 2)]
  | 2 => [(0, 0), (1, 0), (1, 1), (0, -2), (1, -2)]
  | 3 => [(0, 0), (-1, 0), (-1, -1), (0, 2), (-1, 2)]
  | _ => []

/-- `iOrientationToWallKickMap`: SRS kick offsets for the I piece. -/
def iOrientationToWallKickMap : Nat → List (Int × Int)
  | 0 => [(0, 0), (-2, 0), (1, 0), (-2, -1), (1, 2)]
  | 1 => [(0, 0), (-1, 0), (2, 0), (-1, 2), (2, -1)]
  | 2 => [(0, 0), (2, 0), (-1, 0), (2, 1), (-1, -2)]
  | 3 => [(0, 0), (1, 0), (-2, 0), (1, -2), (-2, 1)]
  | _ => []

/-- The mutable `FallingBrick` class.  The source stores
`x = y = -Infinity` as the "unspawned" sentinel (set together by the
constructor and by `spawn`, and only mutated under spawned guards);
this is embedded as `pos : Option (Int × Int)` with `none` =
unspawned.  `orientation` is the numeric enum value, always in
`0..3` in the source. -/
structure FallingBrick where
  type : BrickType
  pos : Option (Int × Int)
  orientation : Nat
  deriving DecidableEq, Repr

namespace FallingBrick

/-- `new FallingBrick(type)`. -/
def mk' (t : BrickType) : FallingBrick := ⟨t, none, 0⟩

/-- `isUnspawned()`: the position sentinel is set. -/
def isUnspawned (b : FallingBrick) : Bool := b.pos.isNone

/-- `shape()`: canonical shape for unspawned or O-type bricks,
otherwise the canonical shape rotated to the current orientation. -/
def shape (b : FallingBrick) : BrickShape :=
  if b.isUnspawned || b.type == BrickType.O then brickTypeToShapeMap b.type
  else rotateShape (brickTypeToShapeMap b.type) b.orientation

/-- `spawn()`: centre horizontally, start fully above the board. -/
def spawn (b : FallingBrick) : FallingBrick :=
  let s := b.shape
  let size := shapeSize s
  { b with pos := some (((GRID_WIDTH : Int) - size) / 2, -(size : Int)) }

/-- `isTouchingFloor()`: some non-empty shape row sits exactly on the
floor line.  On an unspawned brick the source compares
`-Infinity + y + 1 === GRID_HEIGHT`, which is `false`. -/
def isTouchingFloor (b : FallingBrick) : Bool :=
  match b.pos with
  | none => false
  | some (_, y) =>
    let s := b.shape
    (List.range (shapeSize s)).any (fun yy =>
      !(isEmptyBitGridRow s yy) && (y + yy + 1 == (GRID_HEIGHT : Int)))

/-- `isOnTopOfBricks(grid)`: collision one row below the current
position.  On an unspawned brick every source index is `-Infinity`,
`grid[-Infinity]` is `undefined`, so there is no collision. -/
def isOnTopOfBricks (b : FallingBrick) (grid : Grid) : Bool :=
  match b.pos with
  | none => false
  | some (x, y) => collision grid b.shape x (y + 1)

/-- `canFall(grid)`. -/
def canFall (b : FallingBrick) (grid : Grid) : Bool :=
  !(b.isTouchingFloor) && !(b.isOnTopOfBricks grid)

/-- `this.y++` on a spawned brick. -/
def moveDown (b : FallingBrick) : FallingBrick :=
  { b with pos := b.pos.map (fun p => (p.1, p.2 + 1)) }

/-- `tickGravity(grid)`: returns the "landed" flag together with the
(possibly advanced) brick. -/
def tickGravity (b : FallingBrick) (grid : Grid) : Bool × FallingBrick :=
  if !(b.canFall grid) then (true, b) else (false, b.moveDown)

/-- `gameOver(grid)`: `isOnTopOfBricks(grid) && this.y < 0` (the
unspawned case is `false` because `isOnTopOfBricks` is). -/
def gameOver (b : FallingBrick) (grid : Grid) : Bool :=
  match b.pos with
  | none => false
  | some (_, y) => b.isOnTopOfBricks grid && y < 0

/-- `rotate(grid)`: try the 5 kick offsets for the current orientation
on `rotateShape(this.shape(), nextOrientation)`; first success wins,
all-fail leaves the brick unchanged. -/
def rotate (b : FallingBrick) (grid : Grid) : FallingBrick :=
  match b.pos with
  | none => b
  | some (x, y) =>
    if b.type == BrickType.O then b
    else
      let nextOrientation := (b.orientation + 1) % 4
      let nextShape := rotateShape b.shape nextOrientation
      let kicks :=
        if b.type == BrickType.I then iOrientationToWallKickMap b.orientation
        else jlstzOrientationToWallKickMap b.orientation
      match kicks.find? (fun d => !(collision grid nextShape (x + d.1) (y + d.2))) with
      | some d => { b with orientation := nextOrientation, pos := some (x + d.1, y + d.2) }
      | none => b

/-- `isAgainstWall(left)`: some occupied shape cell sits on the extreme
column.  On an unspawned brick `-Infinity + x === bound` is `false`. -/
def isAgainstWall (b : FallingBrick) (left : Bool) : Bool :=
  match b.pos with
  | none => false
  | some (x, _) =>
    let s := b.shape
    let bound : Int := if left then 0 else (GRID_WIDTH : Int) - 1
    (List.range (shapeSize s)).any (fun yy =>
      (List.range (shapeSize s)).any (fun xx =>
        shapeCell s xx yy && (x + xx == bound)))

/-- `moveLeft(grid)`: guarded single-column shift. -/
def moveLeft (b : FallingBrick) (grid : Grid) : FallingBrick :=
  match b.pos with
  | none => b
  | some (x, y) =>
    if !(collision grid b.shape (x - 1) y) && !(b.isAgainstWall true) then
      { b with pos := some (x - 1, y) }
    else b

/-- `moveRight(grid)`: guarded single-column shift. -/
def moveRight (b : FallingBrick) (grid : Grid) : FallingBrick :=
  match b.pos with
  | none => b
  | some (x, y) =>
    if !(collision grid b.shape (x + 1) y) && !(b.isAgainstWall false) then
      { b with pos := some (x + 1, y) }
    else b

/-- The `while (this.canFall(grid)) this.y++` loop of `fastFall`,
embedded with fuel: `none` means the loop did not exit within the
fuel (the source loop diverges exactly when no fuel suffices). -/
def fastFallAux : Nat → FallingBrick → Grid → Option FallingBrick
  | 0, b, grid => if b.canFall grid then none else some b
  | n + 1, b, grid =>
    if b.canFall grid then fastFallAux n b.moveDown grid else some b

/-- `fastFall(grid)`: no-op when unspawned, otherwise the drop loop. -/
def fastFall (fuel : Nat) (b : FallingBrick) (grid : Grid) : Option FallingBrick :=
  if b.isUnspawned then some b else fastFallAux fuel b grid

end FallingBrick

/-- `enum GamePhase`. -/
inductive GamePhase where
  | UNSTARTED | IN_PROGRESS | OVER
  deriving DecidableEq, Repr

/-- The game `State` interface, with the source's `Math.random()` brick
draws made explicit: `supply` is the stream of upcoming random brick
types and every `randomBrickType()` call pops its head. -/
structure GState where
  phase : GamePhase
  bricks : Grid
  score : Nat
  fallingBrick : FallingBrick
  queue : List BrickType
  completedRowAnimationFrame : Option Nat
  supply : List BrickType
  deriving DecidableEq, Repr

/-- One `randomBrickType()` draw from the supply stream. -/
def drawBrick (supply : List BrickType) : BrickType := supply.headD BrickType.I

/-- `initialState()`: object-literal evaluation order draws the falling
brick's type first, then the 4 queue entries. -/
def initialState (supply : List BrickType) : GState where
  phase := GamePhase.UNSTARTED
  bricks := emptyCells GRID_WIDTH GRID_HEIGHT
  score := 0
  fallingBrick := FallingBrick.mk' (drawBrick supply)
  queue := supply.tail.take QUEUE_SIZE
  completedRowAnimationFrame := none
  supply := supply.tail.drop QUEUE_SIZE

/-- The index assignment `grid[y][x] = c` for in-range indices (the
only ones reached by `writeFallingBrickToGrid` in the states the
claims concern; the source would throw on an out-of-range row). -/
def setCell (grid : Grid) (x y : Int) (c : Cell) : Grid :=
  if y < 0 || x < 0 then grid
  else grid.set y.toNat ((grid.getD y.toNat []).set x.toNat c)

/-- `writeFallingBrickToGrid(state)`: stamp the brick's type into every
grid cell covered by an occupied shape cell, in the source's row-major
loop order.  The row-level `shape[y].every(x => !x)` skip only skips
rows the inner `if (!shape[y][x]) continue` would skip cell-by-cell. -/
def writeFallingBrickToGrid (s : GState) : GState :=
  let sh := s.fallingBrick.shape
  let size := shapeSize sh
  match s.fallingBrick.pos with
  | none => s
  | some (bx, by0) =>
    { s with bricks :=
        (List.range size).foldl (fun g yy =>
          (List.range size).foldl (fun g xx =>
            if shapeCell sh xx yy then
              setCell g (bx + xx) (by0 + yy) (Cell.brick s.fallingBrick.type)
            else g) g) s.bricks }

/-- `gameOver(state)` (the state-level one): set phase to OVER. -/
def gameOverState (s : GState) : GState := { s with phase := GamePhase.OVER }

/-- `dequeueNextBrick(state)`: queue becomes
`queue.slice(1, QUEUE_SIZE)` plus one fresh draw; the falling brick is
rebuilt from the old queue front. -/
def dequeueNextBrick (s : GState) : GState :=
  { s with
    queue := (s.queue.drop 1).take (QUEUE_SIZE - 1) ++ [drawBrick s.supply],
    fallingBrick := FallingBrick.mk' (s.queue.headD BrickType.I),
    supply := s.supply.tail }

/-- `isRowAnimating(state)`. -/
def isRowAnimating (s : GState) : Bool := s.completedRowAnimationFrame.isSome

/-- `nextFrame(x)`: `x === ROW_ANIMATION_FRAMES ? null : x + 1`. -/
def nextFrame (x : Nat) : Option Nat :=
  if x == ROW_ANIMATION_FRAMES then none else some (x + 1)

/-- `tickCompletedRowAnimation(state)`. -/
def tickCompletedRowAnimation (s : GState) : GState :=
  { s with completedRowAnimationFrame :=
      match s.completedRowAnimationFrame with
      | some f => nextFrame f
      | none => some 0 }

/-- `removeCompletedRows(state)`. -/
def removeCompletedRows (s : GState) : GState :=
  { s with bricks := removeCompletedRowsFromGrid s.bricks }

/-- `awardPoints(state)`: 100 points per complete row of the grid. -/
def awardPoints (s : GState) : GState :=
  { s with score := s.score + POINTS_PER_ROW * s.bricks.countP isCompleteRow }

/-- `tickClock(state)`. -/
def tickClock (s : GState) : GState :=
  if s.phase != GamePhase.IN_PROGRESS then s
  else if isRowAnimating s then
    let s1 := tickCompletedRowAnimation s
    if isRowAnimating s1 then s1 else removeCompletedRows s1
  else
    let fb0 := if s.fallingBrick.isUnspawned then s.fallingBrick.spawn
               else s.fallingBrick
    let tg := fb0.tickGravity s.bricks
    let s2 := { s with fallingBrick := tg.2 }
    if tg.1 then
      if tg.2.gameOver s.bricks then gameOverState s2
      else
        let s4 := dequeueNextBrick (writeFallingBrickToGrid s2)
        if !(hasCompletedRow s4.bricks) then s4
        else awardPoints (tickCompletedRowAnimation s4)
    else s2

/-- `enum Action`. -/
inductive Action where
  | TICK_CLOCK | START_GAME | DOWN | LEFT | RIGHT | UP
  deriving DecidableEq, Repr

/-- `handleActions(state, action)`: the reducer.  `fuel` bounds the
`fastFall` loop of the DOWN action; every other action is total and
returns `some`. -/
def handleActions (fuel : Nat) (s : GState) (a : Action) : Option GState :=
  match a with
  | .TICK_CLOCK => some (tickClock s)
  | .START_GAME => some { initialState s.supply with phase := GamePhase.IN_PROGRESS }
  | .LEFT => some { s with fallingBrick := s.fallingBrick.moveLeft s.bricks }
  | .RIGHT => some { s with fallingBrick := s.fallingBrick.moveRight s.bricks }
  | .UP => some { s with fallingBrick := s.fallingBrick.rotate s.bricks }
  | .DOWN =>
    (FallingBrick.fastFall fuel s.fallingBrick s.bricks).map
      (fun fb => { s with fallingBrick := fb })

/-- Fold a list of actions through the reducer (`scan(handleActions, …)`). -/
def run (fuel : Nat) (s : GState) (as : List Action) : Option GState :=
  as.foldlM (handleActions fuel) s

/-! Concrete fixtures used by the counterexample and bug-exhibiting
theorems below. -/

/-- A settled grid holding an O brick at columns 4-5 of rows 18-19,
exactly what locking an O piece on the floor of an empty board
produces. -/
def oBlockGrid : Grid :=
  (List.range 20).map (fun y => (List.range 10).map (fun x =>
    if (y == 18 || y == 19) && (x == 4 || x == 5) then Cell.brick BrickType.O
    else Cell.empty))

/-- An L brick in LEFT orientation resting at (2, 17). -/
def lBrickAtLeft : FallingBrick := ⟨BrickType.L, some (2, 17), 3⟩

/-- Brick-type supply for the lock-in trace: 5 draws for the initial
`scan` seed, then O (first falling brick), L, and I fillers. -/
def lockInSupply : List BrickType :=
  List.replicate 5 BrickType.I
    ++ [BrickType.O, BrickType.L, BrickType.I, BrickType.I, BrickType.I]
    ++ List.replicate 5 BrickType.I

/-- Action trace: start, drop the O piece to the floor and lock it,
spawn the L piece, shift it left, rotate it three times, hard-drop it,
then rotate once more (the 3 to 0 rotation that leaves it overlapping
the settled O cells). -/
def lockInActions : List Action :=
  [.START_GAME, .TICK_CLOCK, .DOWN, .TICK_CLOCK, .TICK_CLOCK,
   .LEFT, .UP, .UP, .UP, .DOWN, .UP]

/-- A settled grid with an O-type row segment at columns 3-6 of row 1. -/
def rowOneGrid : Grid :=
  (List.range 20).map (fun y => (List.range 10).map (fun x =>
    if y == 1 && (3 ≤ x && x ≤ 6) then Cell.brick BrickType.O else Cell.empty))

/-- An I brick at (3, -1): its only occupied row lies on board row 0. -/
def iBrickAtTop : FallingBrick := ⟨BrickType.I, some (3, -1), 0⟩

/-- A game-over state whose falling brick is still spawned, as every
landing-while-above-the-board transition leaves behind. -/
def overState : GState :=
  ⟨GamePhase.OVER, emptyCells 10 20, 0, ⟨BrickType.T, some (4, 5), 0⟩,
   [BrickType.I, BrickType.I, BrickType.I, BrickType.I], none, []⟩

/-- A grid whose bottom row is complete. -/
def bottomRowFullGrid : Grid :=
  (List.range 20).map (fun y => (List.range 10).map (fun _ =>
    if y == 19 then Cell.brick BrickType.I else Cell.empty))

/-- An animating state whose frame counter is at 5, one below the
frame budget. -/
def animFrame5State : GState :=
  ⟨GamePhase.IN_PROGRESS, bottomRowFullGrid, 0, FallingBrick.mk' BrickType.L,
   [BrickType.I, BrickType.I, BrickType.I, BrickType.I], some 5, []⟩

/-! Supporting lemmas. -/

/-- `collision` unfolded to an existential over occupied shape cells. -/
theorem collision_eq_true_iff (grid : Grid) (shape : BrickShape) (x0 y0 : Int) :
    collision grid shape x0 y0 = true ↔
      ∃ yy < shapeSize shape, ∃ xx < shapeSize shape,
        shapeCell shape xx yy = true ∧
          isEmptyCell grid (x0 + xx) (y0 + yy) = false := by
  simp only [collision, List.any_eq_true, List.mem_range, Bool.and_eq_true,
    Bool.not_eq_true']

namespace FallingBrick

@[simp]
theorem moveDown_type (b : FallingBrick) : b.moveDown.type = b.type := rfl

@[simp]
theorem moveDown_orientation (b : FallingBrick) :
    b.moveDown.orientation = b.orientation := rfl

theorem moveDown_pos (b : FallingBrick) (x y : Int) (h : b.pos = some (x, y)) :
    b.moveDown.pos = some (x, y + 1) := by
  simp [moveDown, h]

theorem iterate_moveDown_type (b : FallingBrick) (k : Nat) :
    (moveDown^[k] b).type = b.type := by
  induction k generalizing b with
  | zero => rfl
  | succ n ih => rw [Function.iterate_succ_apply]; rw [ih]; rfl

theorem iterate_moveDown_orientation (b : FallingBrick) (k : Nat) :
    (moveDown^[k] b).orientation = b.orientation := by
  induction k generalizing b with
  | zero => rfl
  | succ n ih => rw [Function.iterate_succ_apply]; rw [ih]; rfl

theorem iterate_moveDown_pos (b : FallingBrick) (x y : Int) (k : Nat)
    (h : b.pos = some (x, y)) : (moveDown^[k] b).pos = some (x, y + k) := by
  induction k generalizing b y with
  | zero => simpa using h
  | succ n ih =>
    rw [Function.iterate_succ_apply]
    rw [ih b.moveDown (y + 1) (moveDown_pos b x y h)]
    congr 1
    push_cast
    ring_nf

/-- Big-step characterisation of the `fastFall` fuel loop: a `some`
result is a stopped brick reached by forced one-row falls. -/
theorem fastFallAux_spec (n : Nat) (b b' : FallingBrick) (grid : Grid)
    (h : fastFallAux n b grid = some b') :
    b'.canFall grid = false ∧
      ∃ k, b' = moveDown^[k] b ∧
        ∀ j < k, (moveDown^[j] b).canFall grid = true := by
  induction n generalizing b with
  | zero =>
    unfold fastFallAux at h
    by_cases hc : b.canFall grid = true
    · simp [hc] at h
    · rw [Bool.not_eq_true] at hc
      rw [if_neg (by simp [hc])] at h
      rw [Option.some.injEq] at h
      exact ⟨h ▸ hc, 0, h.symm, by omega⟩
  | succ n ih =>
    unfold fastFallAux at h
    by_cases hc : b.canFall grid = true
    · rw [if_pos hc] at h
      obtain ⟨hstop, k, hk, hmid⟩ := ih b.moveDown h
      refine ⟨hstop, k + 1, ?_, ?_⟩
      · rw [Function.iterate_succ_apply]; exact hk
      · intro j hj
        cases j with
        | zero => simpa using hc
        | succ i =>
          rw [Function.iterate_succ_apply]
          exact hmid i (by omega)
    · rw [if_neg (by simp [hc])] at h
      rw [Option.some.injEq] at h
      rw [Bool.not_eq_true] at hc
      exact ⟨h ▸ hc, 0, h.symm, by omega⟩

/-- `fastFall` only ever yields a brick that can no longer fall (or the
unspawned input unchanged), at coordinates reached by one-row falls. -/
theorem fastFall_spec (fuel : Nat) (b b' : FallingBrick) (grid : Grid)
    (h : fastFall fuel b grid = some b') :
    (∃ k, b' = moveDown^[k] b ∧
        ∀ j < k, (moveDown^[j] b).canFall grid = true) ∧
      (b.isUnspawned = false → b'.canFall grid = false) := by
  unfold fastFall at h
  by_cases hu : b.isUnspawned = true
  · rw [if_pos (by simp [hu])] at h
    rw [Option.some.injEq] at h
    exact ⟨⟨0, h.symm, by omega⟩, by simp [hu]⟩
  · rw [Bool.not_eq_true] at hu
    rw [if_neg (by simp [hu])] at h
    obtain ⟨hstop, k, hk, hmid⟩ := fastFallAux_spec fuel b b' grid h
    exact ⟨⟨k, hk, hmid⟩, fun _ => hstop⟩

end FallingBrick

@[simp]
theorem writeFallingBrickToGrid_queue (s : GState) :
    (writeFallingBrickToGrid s).queue = s.queue := by
  unfold writeFallingBrickToGrid
  rcases s.fallingBrick.pos with _ | ⟨x, y⟩ <;> rfl

@[simp]
theorem writeFallingBrickToGrid_supply (s : GState) :
    (writeFallingBrickToGrid s).supply = s.supply := by
  unfold writeFallingBrickToGrid
  rcases s.fallingBrick.pos with _ | ⟨x, y⟩ <;> rfl

@[simp]
theorem dequeueNextBrick_queue (s : GState) :
    (dequeueNextBrick s).queue =
      (s.queue.drop 1).take (QUEUE_SIZE - 1) ++ [drawBrick s.supply] := rfl

@[simp]
theorem tickCompletedRowAnimation_queue (s : GState) :
    (tickCompletedRowAnimation s).queue = s.queue := rfl

@[simp]
theorem removeCompletedRows_queue (s : GState) :
    (removeCompletedRows s).queue = s.queue := rfl

@[simp]
theorem awardPoints_queue (s : GState) : (awardPoints s).queue = s.queue := rfl

@[simp]
theorem gameOverState_queue (s : GState) : (gameOverState s).queue = s.queue := rfl

/-- The queue after a clock tick: untouched, or dequeued-and-refilled. -/
theorem tickClock_queue (s : GState) :
    (tickClock s).queue = s.queue ∨
      (tickClock s).queue =
        (s.queue.drop 1).take (QUEUE_SIZE - 1)
          ++ [drawBrick (writeFallingBrickToGrid
                { s with fallingBrick :=
                    ((if s.fallingBrick.isUnspawned then s.fallingBrick.spawn
                      else s.fallingBrick).tickGravity s.bricks).2 }).supply] := by
  unfold tickClock
  by_cases h1 : (s.phase != GamePhase.IN_PROGRESS) = true
  · rw [if_pos h1]; left; rfl
  · rw [if_neg h1]
    by_cases h2 : isRowAnimating s = true
    · rw [if_pos h2]
      by_cases h3 : isRowAnimating (tickCompletedRowAnimation s) = true
      · rw [if_pos h3]; left; rfl
      · rw [if_neg h3]; left; simp
    · rw [if_neg h2]
      by_cases h4 : (((if s.fallingBrick.isUnspawned then s.fallingBrick.spawn
          else s.fallingBrick).tickGravity s.bricks)).1 = true
      · rw [if_pos h4]
        by_cases h5 : (((if s.fallingBrick.isUnspawned then s.fallingBrick.spawn
            else s.fallingBrick).tickGravity s.bricks)).2.gameOver s.bricks = true
        · rw [if_pos h5]; left; rfl
        · rw [if_neg h5]
          by_cases h6 : (!(hasCompletedRow (dequeueNextBrick (writeFallingBrickToGrid
              { s with fallingBrick :=
                  ((if s.fallingBrick.isUnspawned then s.fallingBrick.spawn
                    else s.fallingBrick).tickGravity s.bricks).2 })).bricks)) = true
          · rw [if_pos h6]; right; simp
          · rw [if_neg h6]; right; simp
      · rw [if_neg h4]; left; rfl

/-! Claim theorems. -/

/-- C8: `fastFall` is idempotent: whenever the hard-drop loop of
`fastFall(grid)` terminates with result brick `b2`, running
`fastFall(grid)` again from `b2` terminates at once (under any fuel,
even zero) and returns `b2` unchanged, so position and orientation
agree with a single application. -/
theorem c8_fastFall_idempotent (n m : Nat) (b b2 : FallingBrick) (grid : Grid)
    (h : FallingBrick.fastFall n b grid = some b2) :
    FallingBrick.fastFall m b2 grid = some b2 := by
  unfold FallingBrick.fastFall at h ⊢
  by_cases hu : b.isUnspawned = true
  · rw [if_pos (by simp [hu])] at h
    rw [Option.some.injEq] at h
    subst h
    rw [if_pos (by simp [hu])]
  · rw [Bool.not_eq_true] at hu
    rw [if_neg (by simp [hu])] at h
    obtain ⟨hstop, k, hk, -⟩ := FallingBrick.fastFallAux_spec n b b2 grid h
    have hpos : b2.isUnspawned = false := by
      rcases hp : b.pos with _ | ⟨x, y⟩
      · simp [FallingBrick.isUnspawned, hp] at hu
      · have := FallingBrick.iterate_moveDown_pos b x y k hp
        rw [← hk] at this
        simp [FallingBrick.isUnspawned, this]
    rw [if_neg (by simp [hpos])]
    cases m with
    | zero => simp [FallingBrick.fastFallAux, hstop]
    | succ m2 => simp [FallingBrick.fastFallAux, hstop]

/-- C8 witness: a T brick dropped on the empty board lands at row 18,
and dropping again from there is the identity. -/
theorem c8_fastFall_idempotent_witness :
    FallingBrick.fastFall 5 ⟨BrickType.T, some (3, 18), 0⟩ (emptyCells 10 20)
      = some ⟨BrickType.T, some (3, 18), 0⟩ :=
  c8_fastFall_idempotent 30 5 ⟨BrickType.T, some (-2 + 5, -2), 0⟩
    ⟨BrickType.T, some (3, 18), 0⟩ (emptyCells 10 20) (by decide)

/-- C7: while IN_PROGRESS, the DOWN action is a pure hard drop: the
grid, score, queue, phase, animation counter and random supply are
untouched (no cell is written), the falling brick keeps its type,
orientation and column, and it moves down one row at a time while
`canFall` holds, stopping at the first position where `canFall` is
false (for a spawned brick); an unspawned brick leaves the state
entirely unchanged. -/
theorem c7_down_hard_drop (fuel : Nat) (s s2 : GState)
    (_hp : s.phase = GamePhase.IN_PROGRESS)
    (h : handleActions fuel s Action.DOWN = some s2) :
    s2.bricks = s.bricks ∧ s2.score = s.score ∧ s2.queue = s.queue ∧
      s2.phase = s.phase ∧
      s2.completedRowAnimationFrame = s.completedRowAnimationFrame ∧
      s2.supply = s.supply ∧
      s2.fallingBrick.type = s.fallingBrick.type ∧
      s2.fallingBrick.orientation = s.fallingBrick.orientation ∧
      (∃ k, s2.fallingBrick = FallingBrick.moveDown^[k] s.fallingBrick ∧
        ∀ j < k,
          (FallingBrick.moveDown^[j] s.fallingBrick).canFall s.bricks = true) ∧
      (s.fallingBrick.isUnspawned = false →
        s2.fallingBrick.canFall s.bricks = false) ∧
      (s.fallingBrick.isUnspawned = true → s2 = s) := by
  unfold handleActions at h
  rw [Option.map_eq_some'] at h
  obtain ⟨fb, hfb, hs2⟩ := h
  obtain ⟨⟨k, hk, hmid⟩, hstop⟩ :=
    FallingBrick.fastFall_spec fuel s.fallingBrick fb s.bricks hfb
  subst hs2
  refine ⟨rfl, rfl, rfl, rfl, rfl, rfl, ?_, ?_, ⟨k, hk, hmid⟩, hstop, ?_⟩
  · rw [hk]; exact FallingBrick.iterate_moveDown_type s.fallingBrick k
  · rw [hk]; exact FallingBrick.iterate_moveDown_orientation s.fallingBrick k
  · intro hu
    unfold FallingBrick.fastFall at hfb
    rw [if_pos (by simp [hu])] at hfb
    rw [Option.some.injEq] at hfb
    rw [← hfb]

/-- C7 witness: dropping a spawned O brick at (4, 17) over the empty
board while IN_PROGRESS moves it to the floor row and changes nothing
else. -/
theorem c7_down_hard_drop_witness :
    ({ phase := GamePhase.IN_PROGRESS, bricks := emptyCells 10 20, score := 0,
       fallingBrick := ⟨BrickType.O, some (4, 18), 0⟩,
       queue := [BrickType.I, BrickType.I, BrickType.I, BrickType.I],
       completedRowAnimationFrame := none, supply := [] } : GState).bricks
        = (emptyCells 10 20) ∧
      (⟨BrickType.O, some (4, 18), 0⟩ : FallingBrick).canFall
        (emptyCells 10 20) = false := by
  have h := c7_down_hard_drop 8
    { phase := GamePhase.IN_PROGRESS, bricks := emptyCells 10 20, score := 0,
      fallingBrick := ⟨BrickType.O, some (4, 17), 0⟩,
      queue := [BrickType.I, BrickType.I, BrickType.I, BrickType.I],
      completedRowAnimationFrame := none, supply := [] }
    { phase := GamePhase.IN_PROGRESS, bricks := emptyCells 10 20, score := 0,
      fallingBrick := ⟨BrickType.O, some (4, 18), 0⟩,
      queue := [BrickType.I, BrickType.I, BrickType.I, BrickType.I],
      completedRowAnimationFrame := none, supply := [] }
    rfl (by decide)
  exact ⟨h.1, h.2.2.2.2.2.2.2.2.2.1 (by decide)⟩

/-- C2 counterexample: in the OVER phase (reachable with the landed
brick still spawned) a LEFT action still moves the falling brick, so
the reducer does not return a state identical to its input. -/
theorem c2_nonprogress_counterexample :
    overState.phase = GamePhase.OVER ∧
      handleActions 1 overState Action.LEFT ≠ some overState ∧
      (handleActions 1 overState Action.LEFT).map
          (fun s => s.fallingBrick.pos) = some (some (3, 5)) := by
  refine ⟨rfl, ?_, by decide⟩
  intro h
  have := congrArg (Option.map (fun s => s.fallingBrick.pos)) h
  revert this
  decide

/-- C2 amended: for LEFT/RIGHT/UP/DOWN outside IN_PROGRESS the reducer
never touches grid, score, queue, phase, animation counter or supply,
and when the falling brick is unspawned (as in every UNSTARTED state)
the state is returned entirely unchanged; but an OVER state may still
carry a spawned brick, whose position/orientation these actions can
change. -/
theorem c2_nonprogress_amended (fuel : Nat) (s s2 : GState) (a : Action)
    (ha : a = Action.LEFT ∨ a = Action.RIGHT ∨ a = Action.UP ∨ a = Action.DOWN)
    (_hp : s.phase ≠ GamePhase.IN_PROGRESS)
    (h : handleActions fuel s a = some s2) :
    s2.bricks = s.bricks ∧ s2.score = s.score ∧ s2.queue = s.queue ∧
      s2.phase = s.phase ∧
      s2.completedRowAnimationFrame = s.completedRowAnimationFrame ∧
      s2.supply = s.supply ∧
      (s.fallingBrick.isUnspawned = true → s2 = s) := by
  have hun : s.fallingBrick.isUnspawned = true → s.fallingBrick.pos = none := by
    intro hu
    rcases hp : s.fallingBrick.pos with _ | p
    · rfl
    · rw [FallingBrick.isUnspawned, hp] at hu
      simp at hu
  rcases ha with rfl | rfl | rfl | rfl
  · unfold handleActions at h
    rw [Option.some.injEq] at h
    subst h
    refine ⟨rfl, rfl, rfl, rfl, rfl, rfl, fun hu => ?_⟩
    rw [FallingBrick.moveLeft, hun hu]
  · unfold handleActions at h
    rw [Option.some.injEq] at h
    subst h
    refine ⟨rfl, rfl, rfl, rfl, rfl, rfl, fun hu => ?_⟩
    rw [FallingBrick.moveRight, hun hu]
  · unfold handleActions at h
    rw [Option.some.injEq] at h
    subst h
    refine ⟨rfl, rfl, rfl, rfl, rfl, rfl, fun hu => ?_⟩
    rw [FallingBrick.rotate, hun hu]
  · unfold handleActions at h
    rw [Option.map_eq_some'] at h
    obtain ⟨fb, hfb, hs2⟩ := h
    subst hs2
    refine ⟨rfl, rfl, rfl, rfl, rfl, rfl, fun hu => ?_⟩
    unfold FallingBrick.fastFall at hfb
    rw [if_pos (by simp [hu])] at hfb
    rw [Option.some.injEq] at hfb
    rw [← hfb]

/-- C2 amended witness: a RIGHT action on a fresh UNSTARTED state
(falling brick unspawned) leaves the whole state unchanged. -/
theorem c2_nonprogress_amended_witness :
    ({ initialState (List.replicate 5 BrickType.I) with
        fallingBrick := (initialState
          (List.replicate 5 BrickType.I)).fallingBrick.moveRight
            (initialState (List.replicate 5 BrickType.I)).bricks } : GState)
      = initialState (List.replicate 5 BrickType.I) :=
  (c2_nonprogress_amended 1 (initialState (List.replicate 5 BrickType.I))
    ({ initialState (List.replicate 5 BrickType.I) with
        fallingBrick := (initialState
          (List.replicate 5 BrickType.I)).fallingBrick.moveRight
            (initialState (List.replicate 5 BrickType.I)).bricks })
    Action.RIGHT (Or.inr (Or.inl rfl)) (by decide) rfl).2.2.2.2.2.2 rfl

/-- C9: the preview queue has length 4 in the initial state and after
every reducer action (whatever fuel DOWN runs with, given the random
supply can serve the draws), and the lock-in dequeue pops exactly the
queue front into the new falling brick while appending exactly one
fresh draw behind the other three entries, preserving their order. -/
theorem c9_queue_invariant :
    (∀ supply : List BrickType, 5 ≤ supply.length →
      (initialState supply).queue.length = 4) ∧
    (∀ (fuel : Nat) (s s2 : GState) (a : Action), 5 ≤ s.supply.length →
      s.queue.length = 4 → handleActions fuel s a = some s2 →
      s2.queue.length = 4) ∧
    (∀ s : GState, s.queue.length = 4 →
      (dequeueNextBrick s).queue = s.queue.drop 1 ++ [drawBrick s.supply] ∧
      (dequeueNextBrick s).fallingBrick =
        FallingBrick.mk' (s.queue.headD BrickType.I)) := by
  have hdq : ∀ s : GState, s.queue.length = 4 →
      (dequeueNextBrick s).queue = s.queue.drop 1 ++ [drawBrick s.supply] := by
    intro s hq
    rw [dequeueNextBrick_queue]
    congr 1
    exact List.take_of_length_le (by rw [List.length_drop, hq]; decide)
  refine ⟨?_, ?_, fun s hq => ⟨hdq s hq, rfl⟩⟩
  · intro supply hs
    show (supply.tail.take QUEUE_SIZE).length = 4
    rw [List.length_take, List.length_tail]
    show min 4 (supply.length - 1) = 4
    omega
  · intro fuel s s2 a hs hq h
    cases a with
    | TICK_CLOCK =>
      rw [handleActions, Option.some.injEq] at h
      subst h
      rcases tickClock_queue s with hc | hc
      · rw [hc]; exact hq
      · rw [hc, List.length_append, List.length_take, List.length_drop, hq]
        simp [QUEUE_SIZE]
    | START_GAME =>
      rw [handleActions, Option.some.injEq] at h
      subst h
      show ((initialState s.supply).queue).length = 4
      show (s.supply.tail.take QUEUE_SIZE).length = 4
      rw [List.length_take, List.length_tail]
      show min 4 (s.supply.length - 1) = 4
      omega
    | LEFT =>
      rw [handleActions, Option.some.injEq] at h
      subst h
      exact hq
    | RIGHT =>
      rw [handleActions, Option.some.injEq] at h
      subst h
      exact hq
    | UP =>
      rw [handleActions, Option.some.injEq] at h
      subst h
      exact hq
    | DOWN =>
      rw [handleActions, Option.map_eq_some'] at h
      obtain ⟨fb, -, hs2⟩ := h
      subst hs2
      exact hq

/-- C9 witness: the three parts instantiated on concrete states. -/
theorem c9_queue_invariant_witness :
    (initialState lockInSupply).queue.length = 4 ∧
      (tickClock { overState with supply := List.replicate 5 BrickType.I }).queue.length = 4 ∧
      (dequeueNextBrick overState).queue
          = overState.queue.drop 1 ++ [drawBrick overState.supply] :=
  ⟨c9_queue_invariant.1 lockInSupply (by decide),
   c9_queue_invariant.2.1 1 { overState with supply := List.replicate 5 BrickType.I }
     (tickClock { overState with supply := List.replicate 5 BrickType.I })
     Action.TICK_CLOCK (by decide) (by decide) rfl,
   (c9_queue_invariant.2.2 overState (by decide)).1⟩

/-- C6: on any 20-row grid, `removeCompletedRowsFromGrid` returns
exactly the non-complete rows in their original order, preceded by
enough freshly-created empty rows to restore height 20; the result
always has exactly 20 rows, and a grid with no complete row is
returned unchanged. -/
theorem c6_removeCompletedRows (grid : Grid) (h : grid.length = GRID_HEIGHT) :
    removeCompletedRowsFromGrid grid
        = List.replicate
            (GRID_HEIGHT - (grid.filter (fun row => !isCompleteRow row)).length)
            (emptyRow GRID_WIDTH)
          ++ grid.filter (fun row => !isCompleteRow row) ∧
      (removeCompletedRowsFromGrid grid).length = GRID_HEIGHT ∧
      ((∀ row ∈ grid, isCompleteRow row = false) →
        removeCompletedRowsFromGrid grid = grid) := by
  have hle : (grid.filter (fun row => !isCompleteRow row)).length ≤ GRID_HEIGHT := by
    rw [← h]
    exact List.length_filter_le _ grid
  refine ⟨rfl, ?_, ?_⟩
  · show (List.replicate _ _ ++ _).length = GRID_HEIGHT
    rw [List.length_append, List.length_replicate]
    omega
  · intro hnone
    have hfil : grid.filter (fun row => !isCompleteRow row) = grid := by
      apply List.filter_eq_self.mpr
      intro row hrow
      rw [hnone row hrow]
      rfl
    show List.replicate _ _ ++ _ = grid
    rw [hfil, h]
    simp

/-- C6 witness: the empty board (20 rows, none complete) keeps all 20
rows and is unchanged. -/
theorem c6_removeCompletedRows_witness :
    (removeCompletedRowsFromGrid (emptyCells 10 20)).length = GRID_HEIGHT ∧
      removeCompletedRowsFromGrid (emptyCells 10 20) = emptyCells 10 20 := by
  have h := c6_removeCompletedRows (emptyCells 10 20) (by decide)
  exact ⟨h.2.1, h.2.2 (by decide)⟩

/-- C10: boundary semantics of `isEmptyCell` on a full-size grid: any
row index outside [0, 20) reads as empty whatever the column (cells
above and below the board are free for `collision`), while an
in-range row with a column outside [0, 10) reads as NOT empty
(`undefined === -1` is false), so `collision` reports a hit beyond
the side walls. -/
theorem c10_isEmptyCell_boundary (grid : Grid) (x y : Int)
    (hh : grid.length = GRID_HEIGHT)
    (hw : ∀ row ∈ grid, row.length = GRID_WIDTH) :
    ((y < 0 ∨ 20 ≤ y) → isEmptyCell grid x y = true) ∧
      (0 ≤ y → y < 20 → (x < 0 ∨ 10 ≤ x) → isEmptyCell grid x y = false) := by
  constructor
  · rintro (hy | hy)
    · rw [isEmptyCell, rowAt, if_pos hy]
    · rw [isEmptyCell, rowAt, if_neg (by omega)]
      have : grid.get? y.toNat = none := by
        rw [List.get?_eq_none]
        rw [hh]
        show 20 ≤ y.toNat
        omega
      rw [this]
  · intro hy0 hy20 hx
    rw [isEmptyCell, rowAt, if_neg (by omega)]
    rcases hrow : grid.get? y.toNat with _ | row
    · rw [List.get?_eq_none] at hrow
      rw [hh] at hrow
      exfalso
      revert hrow
      show ¬(GRID_HEIGHT ≤ y.toNat)
      show ¬(20 ≤ y.toNat)
      omega
    · have hmem : row ∈ grid := List.get?_mem hrow
      have hrlen : row.length = GRID_WIDTH := hw row hmem
      have hc : cellAt row x = none := by
        rcases hx with hx | hx
        · rw [cellAt, if_pos hx]
        · rw [cellAt, if_neg (by omega)]
          rw [List.get?_eq_none, hrlen]
          show 10 ≤ x.toNat
          omega
      show (cellAt row x == some Cell.empty) = false
      rw [hc]
      rfl

/-- C10 witness: on the empty board, row 25 reads empty at any column
while column 12 of row 5 reads non-empty. -/
theorem c10_isEmptyCell_boundary_witness :
    isEmptyCell (emptyCells 10 20) 3 25 = true ∧
      isEmptyCell (emptyCells 10 20) 12 5 = false := by
  have h1 := c10_isEmptyCell_boundary (emptyCells 10 20) 3 25 (by decide)
    (fun row hrow => by
      rw [List.eq_of_mem_replicate hrow]
      decide)
  have h2 := c10_isEmptyCell_boundary (emptyCells 10 20) 12 5 (by decide)
    (fun row hrow => by
      rw [List.eq_of_mem_replicate hrow]
      decide)
  exact ⟨h1.1 (Or.inr (by decide)), h2.2 (by decide) (by decide)
    (Or.inr (by decide))⟩

/-- C4 counterexample: an I brick at (3, -1) above settled cells in
row 1 makes `gameOver` return true although the brick does NOT
overlap anything at its current, unshifted position (and none of its
occupied cells is above row 0): `gameOver` tests the position shifted
down one row, not the unshifted one. -/
theorem c4_gameOver_counterexample :
    iBrickAtTop.gameOver rowOneGrid = true ∧
      collision rowOneGrid iBrickAtTop.shape 3 (-1) = false ∧
      ((List.range 4).all (fun yy => (List.range 4).all (fun xx =>
        !(shapeCell iBrickAtTop.shape xx yy) || ((-1 : Int) + yy ≥ 0)))) = true := by
  refine ⟨by decide, by decide, by decide⟩

/-- C4 amended: for a spawned brick, `gameOver(grid)` is true iff the
brick's shape shifted down ONE row (i.e. at (x, y+1), the
`isOnTopOfBricks` test) overlaps a settled non-empty grid cell AND
the top of the brick's bounding box is above row 0 (y < 0). -/
theorem c4_gameOver_amended (b : FallingBrick) (grid : Grid) (x y : Int)
    (h : b.pos = some (x, y)) :
    b.gameOver grid = true ↔
      (∃ yy < shapeSize b.shape, ∃ xx < shapeSize b.shape,
        shapeCell b.shape xx yy = true ∧
          isEmptyCell grid (x + xx) (y + 1 + yy) = false) ∧ y < 0 := by
  rw [FallingBrick.gameOver, h]
  show (b.isOnTopOfBricks grid && decide (y < 0)) = true ↔ _
  rw [Bool.and_eq_true, decide_eq_true_iff]
  rw [FallingBrick.isOnTopOfBricks, h]
  rw [collision_eq_true_iff]

/-- C4 amended witness: the amended equivalence evaluated on the
counterexample brick and grid (both sides hold). -/
theorem c4_gameOver_amended_witness :
    iBrickAtTop.gameOver rowOneGrid = true ↔
      (∃ yy < shapeSize iBrickAtTop.shape, ∃ xx < shapeSize iBrickAtTop.shape,
        shapeCell iBrickAtTop.shape xx yy = true ∧
          isEmptyCell rowOneGrid (3 + xx) (-1 + 1 + yy) = false) ∧ (-1 : Int) < 0 :=
  c4_gameOver_amended iBrickAtTop rowOneGrid 3 (-1) rfl

/-- C5 counterexample: with the animation counter at 5 and a complete
bottom row, the next TICK_CLOCK advances the counter so that it
REACHES the budget 6 while remaining present, and the completed row
is still in the grid, contradicting the claim that the transition
reaching 6 clears the counter and removes the rows. -/
theorem c5_animation_counterexample :
    animFrame5State.completedRowAnimationFrame = some 5 ∧
      hasCompletedRow animFrame5State.bricks = true ∧
      (tickClock animFrame5State).completedRowAnimationFrame = some 6 ∧
      (tickClock animFrame5State).bricks = animFrame5State.bricks := by
  refine ⟨rfl, by decide, by decide, by decide⟩

/-- C5 amended: while a row-clear animation is active with counter f,
TICK_CLOCK advances the counter to f+1 and changes nothing else as
long as f is below the budget 6; the tick that runs with the counter
already AT 6 sets it to absent and removes the completed rows from
the grid in that same transition (so the removal and the counter
reset are atomic). -/
theorem c5_animation_amended (s : GState) (f : Nat)
    (hp : s.phase = GamePhase.IN_PROGRESS)
    (hf : s.completedRowAnimationFrame = some f) :
    (f ≠ 6 → tickClock s = { s with completedRowAnimationFrame := some (f + 1) }) ∧
      (f = 6 → tickClock s =
        { s with completedRowAnimationFrame := none,
                 bricks := removeCompletedRowsFromGrid s.bricks }) := by
  have hanim : isRowAnimating s = true := by
    rw [isRowAnimating, hf]
    rfl
  have htick : tickCompletedRowAnimation s
      = { s with completedRowAnimationFrame := nextFrame f } := by
    rw [tickCompletedRowAnimation, hf]
  constructor
  · intro hne
    have hnf : nextFrame f = some (f + 1) := by
      rw [nextFrame, if_neg (by simpa [ROW_ANIMATION_FRAMES] using hne)]
    rw [tickClock, if_neg (by simp [hp]), if_pos hanim, htick, hnf]
    rw [if_pos (by rw [isRowAnimating]; rfl)]
  · intro h6
    subst h6
    have hnf : nextFrame 6 = none := rfl
    rw [tickClock, if_neg (by simp [hp]), if_pos hanim, htick, hnf]
    rw [if_neg (by rw [isRowAnimating]; simp)]
    rw [removeCompletedRows]

/-- C5 amended witness: the amended behaviour evaluated at counter 2
(advance to 3) on a concrete animating state. -/
theorem c5_animation_amended_witness :
    tickClock { animFrame5State with completedRowAnimationFrame := some 2 }
      = { { animFrame5State with completedRowAnimationFrame := some 2 } with
            completedRowAnimationFrame := some (2 + 1) } :=
  (c5_animation_amended
    { animFrame5State with completedRowAnimationFrame := some 2 } 2
    rfl rfl).1 (by decide)

/-- C1 (bug exhibit): `rotate` computes the trial shape as
`rotateShape(this.shape(), nextOrientation)` — the CURRENT-orientation
shape rotated further — instead of the canonical shape rotated to the
next orientation.  For the L brick in LEFT orientation (3) at (2, 17)
over the settled O block, the trial shape (which here equals the
current shape) collides nowhere, so the rotation is accepted at kick
offset (0, 0); but the brick's actual post-rotation shape (canonical,
orientation 0) then overlaps the settled cell (4, 18) even though it
did not overlap anything before the rotation — impossible if the
next-orientation canonical shape had been collision-tested as the
claim states. -/
theorem c1_rotate_uses_current_shape :
    lBrickAtLeft.rotate oBlockGrid = ⟨BrickType.L, some (2, 17), 0⟩ ∧
      collision oBlockGrid (lBrickAtLeft.rotate oBlockGrid).shape 2 17 = true ∧
      collision oBlockGrid lBrickAtLeft.shape 2 17 = false ∧
      rotateShape lBrickAtLeft.shape ((lBrickAtLeft.orientation + 1) % 4)
        ≠ rotateShape (brickTypeToShapeMap BrickType.L)
            ((lBrickAtLeft.orientation + 1) % 4) := by
  refine ⟨by decide, by decide, by decide, by decide⟩

/-- C3 (bug exhibit): a state reachable from START_GAME by ordinary
play (drop an O to the floor; spawn an L, move it left, rotate it
three times, hard-drop it, rotate once more — the rotation accepted
against the wrong trial shape of C1) in which grid cell (4, 18) holds
the settled O brick, yet the very next TICK_CLOCK's lock-in stamps L
over it: the lock-in step CAN overwrite a non-empty cell. -/
theorem c3_lockin_overwrite :
    (run 64 (initialState lockInSupply) lockInActions).map (fun s =>
        ((s.bricks.getD 18 []).getD 4 Cell.empty,
         ((tickClock s).bricks.getD 18 []).getD 4 Cell.empty,
         s.phase, (tickClock s).phase))
      = some (Cell.brick BrickType.O, Cell.brick BrickType.L,
          GamePhase.IN_PROGRESS, GamePhase.IN_PROGRESS) := by
  decide

end Tetris
